import Mathlib

/-!
Shallow embedding of the lsshym-lab-backstage-server authentication flow,
admin credential store, session transport and article resource, translated
from the TypeScript source (NestJS application).  External primitives
(bcrypt, jsonwebtoken) are modelled as executable functions satisfying the
opaque hash/verify and sign/verify contracts the application relies on.
-/

namespace Backstage

/-- Model of a bcrypt hash: the external primitive is opaque; we record the
cost factor and the hashed input so that `bcryptCompare` can decide
verification.  The hash is a distinct type from the plaintext string. -/
structure BcryptHash where
  cost : Nat
  input : String
deriving DecidableEq, Repr

/-- Model of `bcrypt.hash(plain, cost)`. -/
def bcryptHash (plain : String) (cost : Nat) : BcryptHash :=
  ⟨cost, plain⟩

/-- Model of `bcrypt.compare(plain, hash)`: true exactly when the plaintext
is the preimage of the stored hash. -/
def bcryptCompare (plain : String) (h : BcryptHash) : Bool :=
  plain == h.input

/-- JWT payload as built in `AuthService.login`:
`{ username: admin.username, sub: admin._id }`. -/
structure JwtPayload where
  username : String
  sub : String
deriving DecidableEq, Repr

/-- Model of a signed JWT: payload, signature (matches iff the verifying
secret equals the signing secret), issued-at and expiry timestamps. -/
structure SignedToken where
  payload : JwtPayload
  sig : String
  iat : Nat
  exp : Nat
deriving DecidableEq, Repr

/-- Model of `jwtService.sign(payload)` with secret `JWT_SECRET` and
`expiresIn` from `JWT_EXPIRATION`, at time `now`. -/
def jwtSign (secret : String) (expiresIn : Nat) (now : Nat) (p : JwtPayload) : SignedToken :=
  ⟨p, secret, now, now + expiresIn⟩

/-- Model of JWT verification with `ignoreExpiration: false`: succeeds iff
the signature matches the secret and the current time is strictly before
the expiry timestamp. -/
def jwtVerify (secret : String) (now : Nat) (t : SignedToken) : Option JwtPayload :=
  if t.sig == secret && now < t.exp then some t.payload else none

/-- Admin record per `src/auth/schemas/admin.schema.ts`: a store-assigned
`_id`, a unique required `username`, and a required `password` holding the
bcrypt hash. -/
structure AdminRecord where
  _id : String
  username : String
  password : BcryptHash
deriving DecidableEq, Repr

/-- The admins collection, with the documents in insertion order. -/
abbrev AdminStore := List AdminRecord

/-- Function `AdminService.findOne(username)`: `adminModel.findOne(\x7b username \x7d)`,
the first record whose username matches, `null` when none does. -/
def AdminService.findOne (store : AdminStore) (username : String) : Option AdminRecord :=
  store.find? (fun a => a.username == username)

/-- Dto `CreateAdminDto`: username and password strings. -/
structure CreateAdminDto where
  username : String
  password : String
deriving DecidableEq, Repr

/-- Outcome of `AdminService.create`: the saved document and new store on
success, `ConflictException` (HTTP 409) on duplicate username,
`InternalServerErrorException` (HTTP 500) on any other persistence error. -/
inductive CreateResult where
  | created (store : AdminStore) (record : AdminRecord)
  | conflictError (message : String)
  | internalError
deriving DecidableEq, Repr

/-- HTTP status carried by each `CreateResult`. -/
def CreateResult.status : CreateResult → Nat
  | .created _ _ => 201
  | .conflictError _ => 409
  | .internalError => 500

/-- Model of `admin.save()`: `fault` injects an external persistence
failure with the given Mongo error code; otherwise the unique index on
`username` raises error code 11000 on a duplicate, and the document is
appended to the collection on success. -/
def adminModelSave (store : AdminStore) (doc : AdminRecord) (fault : Option Nat) :
    Except Nat AdminStore :=
  match fault with
  | some code => .error code
  | none =>
    if store.any (fun a => a.username == doc.username) then .error 11000
    else .ok (store ++ [doc])

/-- Function `AdminService.create(createAdminDto)`: hashes the password with bcrypt
cost 10, saves `{ username, password: hashedPassword }` (the store assigns
`newId`), maps Mongo error 11000 to `ConflictException('用户名已存在')` and
any other error to `InternalServerErrorException`. -/
def AdminService.create (store : AdminStore) (newId : String)
    (dto : CreateAdminDto) (fault : Option Nat) : CreateResult :=
  let hashedPassword := bcryptHash dto.password 10
  let admin : AdminRecord := ⟨newId, dto.username, hashedPassword⟩
  match adminModelSave store admin fault with
  | .ok store2 => .created store2 admin
  | .error code =>
    if code == 11000 then .conflictError "用户名已存在"
    else .internalError

/-- A field value of the plain object produced by `admin.toObject()`:
either a string field or the stored bcrypt hash. -/
inductive FieldValue where
  | str (s : String)
  | hash (h : BcryptHash)
deriving DecidableEq, Repr

/-- Model of `admin.toObject()`: the document's own fields as a key/value
list (`_id`, `username`, `password`). -/
def AdminRecord.toObject (a : AdminRecord) : List (String × FieldValue) :=
  [("_id", .str a._id), ("username", .str a.username), ("password", .hash a.password)]

/-- Function `AuthService.validateAdmin(username, pass)`: looks the admin up by
username, checks the password with bcrypt, and on success returns the
plain object with the `password` key removed by rest destructuring
(`const \x7b password, ...result \x7d = admin.toObject()`); `null` otherwise. -/
def AuthService.validateAdmin (store : AdminStore) (username pass : String) :
    Option (List (String × FieldValue)) :=
  match AdminService.findOne store username with
  | some admin =>
    if bcryptCompare pass admin.password then
      some ((AdminRecord.toObject admin).filter (fun kv => kv.1 != "password"))
    else none
  | none => none

/-- Function `AuthService.login(admin)`: signs the payload
`{ username: admin.username, sub: admin._id }` and returns the access
token. -/
def AuthService.login (secret : String) (expiresIn now : Nat) (admin : AdminRecord) :
    SignedToken :=
  jwtSign secret expiresIn now { username := admin.username, sub := admin._id }

/-- The request-scoped identity built by `JwtStrategy.validate` and stored
on `req.user`. -/
structure Identity where
  adminId : String
  username : String
deriving DecidableEq, Repr

/-- Function `JwtStrategy.validate(payload)`: maps a verified JWT payload to
`{ adminId: payload.sub, username: payload.username }`. -/
def JwtStrategy.validate (payload : JwtPayload) : Identity :=
  { adminId := payload.sub, username := payload.username }

/-- An inbound HTTP request as seen by the session transport: the parsed
cookies (via `cookie-parser`) and the raw `Authorization` header. -/
structure InboundRequest where
  cookies : List (String × String)
  authorization : Option String
deriving DecidableEq, Repr

/-- Lookup `req.cookies[name]`: the value of the named cookie, if present. -/
def InboundRequest.cookieValue (req : InboundRequest) (name : String) : Option String :=
  (req.cookies.find? (fun kv => kv.1 == name)).map (fun kv => kv.2)

/-- The `jwtFromRequest` extractor configured in `JwtStrategy`:
`ExtractJwt.fromExtractors([(req) => req.cookies.access_token || null])`.
The single extractor reads the `access_token` cookie and maps any falsy
value (absent cookie or empty string) to `null`; no other source is
consulted. -/
def jwtFromRequest (req : InboundRequest) : Option String :=
  match req.cookieValue "access_token" with
  | some v => if v == "" then none else some v
  | none => none

/-- Strip a leading `Bearer ` scheme from a header's characters. -/
def stripBearer : List Char → Option (List Char)
  | 'B' :: 'e' :: 'a' :: 'r' :: 'e' :: 'r' :: ' ' :: rest => some rest
  | _ => none

/-- Modelled from the spec: the Bearer-header extractor the specification
describes for the Session Transport ("optionally (b) an `Authorization:
Bearer` header"); no such extractor exists in the source's `JwtStrategy`. -/
def bearerFromHeader (req : InboundRequest) : Option String :=
  match req.authorization with
  | some h => (stripBearer h.data).map (fun cs => String.mk cs)
  | none => none

/-- String form of a signed token as carried in a cookie, so that the
guard can decode what the transport extracted. -/
def encodeToken (t : SignedToken) : String :=
  t.payload.username ++ "|" ++ t.payload.sub ++ "|" ++ toString t.iat ++ "|"
    ++ toString t.exp ++ "|" ++ t.sig

/-- Inverse of `encodeToken`; `none` on a structurally malformed token. -/
def decodeToken (s : String) : Option SignedToken :=
  match s.splitOn "|" with
  | [u, sub, iatS, expS, sig] =>
    match iatS.toNat?, expS.toNat? with
    | some iat, some e => some ⟨⟨u, sub⟩, sig, iat, e⟩
    | _, _ => none
  | _ => none

/-- Outcome of `JwtAuthGuard` on a request: 401 with no token extracted
(verification never attempted), 401 on a malformed/expired/forged token,
or the authenticated identity attached as `req.user`. -/
inductive GuardOutcome where
  | unauthorizedNoToken
  | unauthorizedInvalid
  | authorized (user : Identity)
deriving DecidableEq, Repr

/-- Guard `JwtAuthGuard` (passport `jwt` strategy): extract the token with
`jwtFromRequest`; fail without verification when it is absent; otherwise
decode and verify the token and build the identity via
`JwtStrategy.validate`. -/
def JwtAuthGuard.run (secret : String) (now : Nat) (req : InboundRequest) : GuardOutcome :=
  match jwtFromRequest req with
  | none => .unauthorizedNoToken
  | some s =>
    match decodeToken s with
    | none => .unauthorizedInvalid
    | some t =>
      match jwtVerify secret now t with
      | none => .unauthorizedInvalid
      | some payload => .authorized (JwtStrategy.validate payload)

/-- The runtime login object as the controller sees it
(`loginAdminDto.username`, `.password`, and the destructured `rememberMe`,
which the DTO class does not declare and is therefore `none` whenever the
global validation pipe has run). -/
structure LoginAdminDto where
  username : String
  password : String
  rememberMe : Option Bool
deriving DecidableEq, Repr

/-- A `Set-Cookie` produced by `res.cookie(name, value, options)`:
`maxAgeMs` is the express `maxAge` option in milliseconds; `sameSite` is
an option the controller may or may not set. -/
structure SetCookie where
  name : String
  value : SignedToken
  httpOnly : Bool
  secure : Bool
  sameSite : Option String
  maxAgeMs : Option Nat
deriving DecidableEq, Repr

/-- Express renders the `maxAge` millisecond option as a `Max-Age`
attribute in seconds (floor division by 1000); `none` means the attribute
is omitted and the cookie is a browser-session cookie. -/
def SetCookie.maxAgeSeconds (c : SetCookie) : Option Nat :=
  c.maxAgeMs.map (fun ms => ms / 1000)

/-- JSON body of a login-pipeline response: the success body
`{ message, code }` (it has no token field), a 401
`UnauthorizedException` body, or a 400 validation-error body carrying the
field messages. -/
inductive ResponseBody where
  | success (message : String) (code : Nat)
  | unauthorized (message : String)
  | validation (messages : List String)
deriving DecidableEq, Repr

/-- An HTTP response of the login pipeline: status, attached
`Set-Cookie` headers, and JSON body. -/
structure LoginResponse where
  status : Nat
  cookies : List SetCookie
  body : ResponseBody
deriving DecidableEq, Repr

/-- Function `AuthController.login(loginAdminDto, res)`: look the admin up
by username (401 `'管理员不存在'` when absent), compare the password with
bcrypt (401 `'密码错误'` on mismatch), sign the token via
`authService.login`, build the cookie options
`{ httpOnly: true, secure: false, maxAge: undefined }` — adding
`maxAge = 1 * 24 * 60 * 60 * 1000` only when `rememberMe` is truthy and
setting no `sameSite` — attach the `access_token` cookie and answer
`200 { message: '登录成功', code: 200 }`. -/
def AuthController.login (store : AdminStore) (secret : String) (expiresIn now : Nat)
    (dto : LoginAdminDto) : LoginResponse :=
  match AdminService.findOne store dto.username with
  | none => { status := 401, cookies := [], body := .unauthorized "管理员不存在" }
  | some admin =>
    if bcryptCompare dto.password admin.password then
      let tok := AuthService.login secret expiresIn now admin
      let maxAgeMs : Option Nat :=
        match dto.rememberMe with
        | some true => some (1 * 24 * 60 * 60 * 1000)
        | _ => none
      { status := 200,
        cookies := [{ name := "access_token", value := tok, httpOnly := true,
                      secure := false, sameSite := none, maxAgeMs := maxAgeMs }],
        body := .success "登录成功" 200 }
    else { status := 401, cookies := [], body := .unauthorized "密码错误" }

/-- Raw JSON body of a `POST /auth/login` request, before validation:
each recognised property may be present or absent. -/
structure LoginRequestBody where
  username : Option String
  password : Option String
  rememberMe : Option Bool
deriving DecidableEq, Repr

/-- The global `ValidationPipe(\x7b whitelist: true, forbidNonWhitelisted:
true, transform: true \x7d)` from `main.ts`, applied to `LoginAdminDto`,
whose declared properties are exactly `username` and `password` (both
`@IsString()`): a present `rememberMe` property is not whitelisted and is
rejected, and a missing username or password fails `@IsString()`. -/
def validateLoginBody (b : LoginRequestBody) : Except (List String) LoginAdminDto :=
  let errs :=
    (if b.rememberMe.isSome then ["property rememberMe should not exist"] else [])
      ++ (if b.username.isNone then ["username must be a string"] else [])
      ++ (if b.password.isNone then ["password must be a string"] else [])
  match b.username, b.password with
  | some u, some p =>
    if b.rememberMe.isSome then .error errs
    else .ok { username := u, password := p, rememberMe := none }
  | _, _ => .error errs

/-- The full `POST /auth/login` pipeline: the global validation pipe
(which answers 400 with the validation messages and sets no cookie) and
then the controller. -/
def loginEndpoint (store : AdminStore) (secret : String) (expiresIn now : Nat)
    (b : LoginRequestBody) : LoginResponse :=
  match validateLoginBody b with
  | .error msgs => { status := 400, cookies := [], body := .validation msgs }
  | .ok dto => AuthController.login store secret expiresIn now dto

/-- An article document as created from `CreateArticleDto` (the schema
defaults `published`/`createdAt` play no role in the service logic). -/
structure Article where
  title : String
  content : String
deriving DecidableEq, Repr

/-- What an `ArticlesService` method hands back to the controller: the
saved document, or a plain placeholder string. -/
inductive ArticlesReply where
  | doc (a : Article)
  | text (s : String)
deriving DecidableEq, Repr

/-- Result of an `ArticlesService` call: the articles collection after the
call and the value returned to the controller. -/
structure ArticlesOutcome where
  store : List Article
  reply : ArticlesReply
deriving DecidableEq, Repr

/-- Function `ArticlesService.create(createArticleDto)`: constructs the
document and saves it (`new this.articleModel(createArticleDto)` then
`.save()`), returning the created document. -/
def ArticlesService.create (store : List Article) (dto : Article) : ArticlesOutcome :=
  { store := store ++ [dto], reply := .doc dto }

/-- Function `ArticlesService.findAll()`: returns the literal string
`'This action returns all articles'` and never touches the collection. -/
def ArticlesService.findAll (store : List Article) : ArticlesOutcome :=
  { store := store, reply := .text "This action returns all articles" }

/-- Function `ArticlesService.findOne(id)`: returns the template string
and never touches the collection. -/
def ArticlesService.findOne (store : List Article) (id : Int) : ArticlesOutcome :=
  { store := store, reply := .text ("This action returns a #" ++ toString id ++ " article") }

/-- Function `ArticlesService.update(id, updateArticleDto)`: returns the
template string and never touches the collection. -/
def ArticlesService.update (store : List Article) (id : Int) : ArticlesOutcome :=
  { store := store, reply := .text ("This action updates a #" ++ toString id ++ " article") }

/-- Function `ArticlesService.remove(id)`: returns the template string and
never touches the collection. -/
def ArticlesService.remove (store : List Article) (id : Int) : ArticlesOutcome :=
  { store := store, reply := .text ("This action removes a #" ++ toString id ++ " article") }

/-- Concrete admin record used by witnesses: the provisioning of
`("alice", "Secret123")` with the stored bcrypt hash. -/
def aliceRecord : AdminRecord :=
  ⟨"661f0a", "alice", bcryptHash "Secret123" 10⟩

/-- A store holding exactly the `alice` record. -/
def aliceStore : AdminStore := [aliceRecord]

/-- C1: for every admin record with store identifier `_id` and username,
validating the token produced by `AuthService.login` (payload
`{ username, sub: _id }`) while the token is within its expiry window
yields a payload whose username equals the record's username and whose
subject (exposed as `adminId` by `JwtStrategy.validate`) equals the store
identifier. -/
theorem c1_token_roundtrip (secret : String) (expiresIn tIssue tVal : Nat)
    (admin : AdminRecord) (hWin : tVal < tIssue + expiresIn) :
    (jwtVerify secret tVal (AuthService.login secret expiresIn tIssue admin)).map
        JwtStrategy.validate
      = some { adminId := admin._id, username := admin.username } := by
  simp [AuthService.login, jwtSign, jwtVerify, JwtStrategy.validate, hWin]

/-- Witness for C1 at a concrete secret, expiry window and admin record. -/
theorem c1_token_roundtrip_witness :
    (5 : Nat) < 0 + 3600 ∧
    (jwtVerify "s3cret" 5 (AuthService.login "s3cret" 3600 0 aliceRecord)).map
        JwtStrategy.validate
      = some { adminId := "661f0a", username := "alice" } :=
  ⟨by decide, c1_token_roundtrip "s3cret" 3600 0 5 aliceRecord (by decide)⟩

/-- C2: for every login request whose username is not present in the
store, and for every request whose username exists but whose password
does not verify against the stored hash, `AuthController.login` fails
with a 401 `UnauthorizedException` body, attaches no `access_token`
cookie, and issues no token. -/
theorem c2_invalid_credentials (store : AdminStore) (secret : String)
    (expiresIn now : Nat) (dto : LoginAdminDto)
    (h : AdminService.findOne store dto.username = none ∨
      ∃ admin, AdminService.findOne store dto.username = some admin ∧
        bcryptCompare dto.password admin.password = false) :
    (AuthController.login store secret expiresIn now dto).status = 401 ∧
    (AuthController.login store secret expiresIn now dto).cookies = [] ∧
    ∃ m, (AuthController.login store secret expiresIn now dto).body
      = ResponseBody.unauthorized m := by
  rcases h with h | ⟨admin, hfind, hcmp⟩
  · simp [AuthController.login, h]
  · simp [AuthController.login, hfind, hcmp]

/-- Witness for C2: the wrong-password request `("alice", "wrongpass")`
against the store holding alice. -/
theorem c2_invalid_credentials_witness :
    (AdminService.findOne aliceStore "alice" = none ∨
      ∃ admin, AdminService.findOne aliceStore "alice" = some admin ∧
        bcryptCompare "wrongpass" admin.password = false) ∧
    ((AuthController.login aliceStore "s3cret" 3600 0
        ⟨"alice", "wrongpass", none⟩).status = 401 ∧
      (AuthController.login aliceStore "s3cret" 3600 0
        ⟨"alice", "wrongpass", none⟩).cookies = [] ∧
      ∃ m, (AuthController.login aliceStore "s3cret" 3600 0
        ⟨"alice", "wrongpass", none⟩).body = ResponseBody.unauthorized m) :=
  ⟨Or.inr ⟨aliceRecord, by decide, by decide⟩,
   c2_invalid_credentials aliceStore "s3cret" 3600 0 ⟨"alice", "wrongpass", none⟩
     (Or.inr ⟨aliceRecord, by decide, by decide⟩)⟩

/-- C3 counterexample: with alice provisioned, a login request that is
valid except that it carries `rememberMe: false` explicitly is rejected
by the global validation pipe with status 400 and no cookie (the
`rememberMe` property is not declared on `LoginAdminDto` and
`forbidNonWhitelisted` is set), not answered 200 as the claim states for
"rememberMe false or absent". -/
theorem c3_rememberMe_false_rejected :
    (loginEndpoint aliceStore "s3cret" 3600 0
        { username := some "alice", password := some "Secret123",
          rememberMe := some false }).status = 400 ∧
    (loginEndpoint aliceStore "s3cret" 3600 0
        { username := some "alice", password := some "Secret123",
          rememberMe := some false }).cookies = [] := by decide

/-- C3 (amended): for every login request with a valid username/password
pair and `rememberMe` absent, the response has status 200 and sets an
`access_token` cookie carrying the signed token with no `Max-Age`
(browser-session cookie), and the JSON body is exactly
`{ message: '登录成功', code: 200 }`, containing no token value. -/
theorem c3_login_session_cookie (store : AdminStore) (secret : String)
    (expiresIn now : Nat) (u p : String) (admin : AdminRecord)
    (hfind : AdminService.findOne store u = some admin)
    (hcmp : bcryptCompare p admin.password = true) :
    loginEndpoint store secret expiresIn now
        { username := some u, password := some p, rememberMe := none }
      = { status := 200,
          cookies := [{ name := "access_token",
                        value := AuthService.login secret expiresIn now admin,
                        httpOnly := true, secure := false, sameSite := none,
                        maxAgeMs := none }],
          body := .success "登录成功" 200 } := by
  simp [loginEndpoint, validateLoginBody, AuthController.login, hfind, hcmp]

/-- Witness for C3 (amended): the concrete request
`("alice", "Secret123")` with `rememberMe` absent. -/
theorem c3_login_session_cookie_witness :
    AdminService.findOne aliceStore "alice" = some aliceRecord ∧
    bcryptCompare "Secret123" aliceRecord.password = true ∧
    loginEndpoint aliceStore "s3cret" 3600 0
        { username := some "alice", password := some "Secret123",
          rememberMe := none }
      = { status := 200,
          cookies := [{ name := "access_token",
                        value := AuthService.login "s3cret" 3600 0 aliceRecord,
                        httpOnly := true, secure := false, sameSite := none,
                        maxAgeMs := none }],
          body := .success "登录成功" 200 } :=
  ⟨by decide, by decide,
   c3_login_session_cookie aliceStore "s3cret" 3600 0 "alice" "Secret123" aliceRecord
     (by decide) (by decide)⟩

/-- C4: at the failing input — a login request for the provisioned
`("alice", "Secret123")` with `rememberMe: true` — the pipeline rejects
the request with 400 and no cookie, because `LoginAdminDto` does not
declare `rememberMe` and the global pipe sets `forbidNonWhitelisted`;
the controller code alone, had the field reached it, would have set the
cookie with `Max-Age` 86400 seconds, as the claim describes. -/
theorem c4_rememberMe_divergence :
    (loginEndpoint aliceStore "s3cret" 3600 0
        { username := some "alice", password := some "Secret123",
          rememberMe := some true }).status = 400 ∧
    (loginEndpoint aliceStore "s3cret" 3600 0
        { username := some "alice", password := some "Secret123",
          rememberMe := some true }).cookies = [] ∧
    (AuthController.login aliceStore "s3cret" 3600 0
        ⟨"alice", "Secret123", some true⟩).cookies.map SetCookie.maxAgeSeconds
      = [some 86400] := by decide

/-- C5 counterexample: a request with no cookies but a well-formed
`Authorization: Bearer` header — the configured extractor reports the
token absent even though the header carries one, refuting the claim that
absence is reported only when neither source is present: the Bearer
fallback described by the spec does not exist in `JwtStrategy`. -/
theorem c5_bearer_only_absent :
    jwtFromRequest { cookies := [], authorization := some "Bearer tok123" } = none ∧
    bearerFromHeader { cookies := [], authorization := some "Bearer tok123" }
      = some "tok123" := by decide

/-- C5 (amended): the session transport extracts the token from the
`access_token` cookie only — the result never depends on the
`Authorization` header — and reports the token absent exactly when that
cookie is missing or empty. -/
theorem c5_extraction_cookie_only (req : InboundRequest) (h : Option String) :
    jwtFromRequest { req with authorization := h } = jwtFromRequest req ∧
    (jwtFromRequest req = none ↔
      (req.cookieValue "access_token" = none ∨
        req.cookieValue "access_token" = some "")) := by
  constructor
  · rfl
  · rcases hcv : req.cookieValue "access_token" with _ | v
    · simp [jwtFromRequest, hcv]
    · by_cases hv : v = ""
      · subst hv
        simp [jwtFromRequest, hcv]
      · simp [jwtFromRequest, hcv, hv]

/-- C6 counterexample: the successful login of the provisioned alice does
attach an `access_token` cookie, yet no cookie of that response carries
`SameSite=Strict` — the controller's cookie options set no `sameSite`
attribute at all. -/
theorem c6_samesite_not_strict :
    (AuthController.login aliceStore "s3cret" 3600 0
        ⟨"alice", "Secret123", none⟩).cookies ≠ [] ∧
    ((AuthController.login aliceStore "s3cret" 3600 0
        ⟨"alice", "Secret123", none⟩).cookies.all
      (fun c => c.sameSite == some "Strict")) = false := by decide

/-- C6 (amended): every cookie attached by a successful
`AuthController.login` carries `HttpOnly`, is not `Secure`, and has no
`SameSite` attribute (in particular it is not `SameSite=Strict`). -/
theorem c6_cookie_flags (store : AdminStore) (secret : String)
    (expiresIn now : Nat) (dto : LoginAdminDto) :
    ((AuthController.login store secret expiresIn now dto).cookies.all
      (fun c => c.httpOnly && !c.secure && c.sameSite == (none : Option String)))
      = true := by
  unfold AuthController.login
  cases AdminService.findOne store dto.username with
  | none => rfl
  | some admin =>
    cases hcmp : bcryptCompare dto.password admin.password <;> simp [hcmp]

/-- C7: the create operation on the credential store fails with Conflict
(409) when an admin with the same username already exists, surfaces any
other persistence failure as InternalError (500), and on success the
stored record holds the bcrypt hash (cost 10) of the password, never the
plaintext. -/
theorem c7_create_spec (store : AdminStore) (newId : String)
    (dto : CreateAdminDto) (fault : Option Nat) :
    ((∃ a, a ∈ store ∧ a.username = dto.username) → fault = none →
      AdminService.create store newId dto fault = .conflictError "用户名已存在" ∧
      (AdminService.create store newId dto fault).status = 409) ∧
    (∀ code, fault = some code → code ≠ 11000 →
      AdminService.create store newId dto fault = .internalError ∧
      (AdminService.create store newId dto fault).status = 500) ∧
    (∀ store2 record,
      AdminService.create store newId dto fault = .created store2 record →
      record.password = bcryptHash dto.password 10 ∧
      record.username = dto.username ∧ store2 = store ++ [record]) := by
  refine ⟨?_, ?_, ?_⟩
  · rintro ⟨a, ha, hu⟩ rfl
    have hany : store.any (fun a => a.username == dto.username) = true :=
      List.any_eq_true.mpr ⟨a, ha, by simp [hu]⟩
    simp [AdminService.create, adminModelSave, hany, CreateResult.status]
  · rintro code rfl hcode
    have hbeq : (code == 11000) = false := by simpa using hcode
    simp [AdminService.create, adminModelSave, hbeq, CreateResult.status]
  · intro store2 record h
    cases fault with
    | some code =>
      cases hc : (code == 11000) <;> simp [AdminService.create, adminModelSave, hc] at h
    | none =>
      cases hany : store.any (fun a => a.username == dto.username) with
      | true => simp [AdminService.create, adminModelSave, hany] at h
      | false =>
        simp [AdminService.create, adminModelSave, hany] at h
        obtain ⟨h1, h2⟩ := h
        subst h1
        subst h2
        exact ⟨rfl, rfl, rfl⟩

/-- Witness for C7: conflict on a second "alice", InternalError on an
injected persistence fault with a non-11000 code, and the stored hash on
a successful creation. -/
theorem c7_create_spec_witness :
    (AdminService.create aliceStore "id2" ⟨"alice", "Other99"⟩ none
        = .conflictError "用户名已存在" ∧
      (AdminService.create aliceStore "id2" ⟨"alice", "Other99"⟩ none).status = 409) ∧
    (AdminService.create aliceStore "id2" ⟨"bob", "Other99"⟩ (some 5)
        = .internalError ∧
      (AdminService.create aliceStore "id2" ⟨"bob", "Other99"⟩ (some 5)).status = 500) ∧
    ((⟨"id2", "bob", bcryptHash "Other99" 10⟩ : AdminRecord).password
        = bcryptHash "Other99" 10 ∧
      (⟨"id2", "bob", bcryptHash "Other99" 10⟩ : AdminRecord).username = "bob" ∧
      aliceStore ++ [(⟨"id2", "bob", bcryptHash "Other99" 10⟩ : AdminRecord)]
        = aliceStore ++ [(⟨"id2", "bob", bcryptHash "Other99" 10⟩ : AdminRecord)]) :=
  ⟨(c7_create_spec aliceStore "id2" ⟨"alice", "Other99"⟩ none).1
      ⟨aliceRecord, by decide, by decide⟩ rfl,
   (c7_create_spec aliceStore "id2" ⟨"bob", "Other99"⟩ (some 5)).2.1 5 rfl (by decide),
   (c7_create_spec aliceStore "id2" ⟨"bob", "Other99"⟩ none).2.2
      (aliceStore ++ [⟨"id2", "bob", bcryptHash "Other99" 10⟩])
      ⟨"id2", "bob", bcryptHash "Other99" 10⟩ (by decide)⟩

/-- C8 counterexample: with the collection holding exactly one article,
`remove` leaves the collection unchanged (the article is not removed),
`update` changes nothing, `findAll` returns a fixed placeholder string
rather than the stored articles, and `findOne` returns a template string
rather than the article — refuting "list returns the stored articles,
read-by-id returns the article with that id, patch updates it, and
delete removes it". -/
theorem c8_crud_stubbed :
    (ArticlesService.remove [⟨"t1", "c1"⟩] 0).store = [⟨"t1", "c1"⟩] ∧
    (ArticlesService.update [⟨"t1", "c1"⟩] 0).store = [⟨"t1", "c1"⟩] ∧
    (ArticlesService.findAll [⟨"t1", "c1"⟩]).reply
      = .text "This action returns all articles" ∧
    (ArticlesService.findOne [⟨"t1", "c1"⟩] 0).reply
      = .text "This action returns a #0 article" := by decide

/-- C8 (amended): `create` persists the document (appends it to the
collection and returns it); `findAll`, `findOne`, `update` and `remove`
leave the collection unchanged and return fixed placeholder strings —
of the five CRUD operations only create is implemented. -/
theorem c8_crud_actual (store : List Article) (dto : Article) (id : Int) :
    ArticlesService.create store dto = ⟨store ++ [dto], .doc dto⟩ ∧
    (ArticlesService.findAll store).store = store ∧
    (ArticlesService.findAll store).reply
      = .text "This action returns all articles" ∧
    (ArticlesService.findOne store id).store = store ∧
    (ArticlesService.update store id).store = store ∧
    (ArticlesService.remove store id).store = store :=
  ⟨rfl, rfl, rfl, rfl, rfl, rfl⟩

/-- C9: whenever `AuthService.validateAdmin` returns a non-null result,
that result contains no `password` field — the password hash is stripped
from the admin object before it is returned to any caller. -/
theorem c9_password_stripped (store : AdminStore) (u p : String)
    (r : List (String × FieldValue))
    (h : AuthService.validateAdmin store u p = some r) :
    ∀ kv ∈ r, kv.1 ≠ "password" := by
  intro kv hkv
  unfold AuthService.validateAdmin at h
  cases hfind : AdminService.findOne store u with
  | none => rw [hfind] at h; cases h
  | some admin =>
    rw [hfind] at h
    cases hcmp : bcryptCompare p admin.password with
    | false => simp [hcmp] at h
    | true =>
      simp only [hcmp, if_true, Option.some.injEq] at h
      subst h
      have hmem := (List.mem_filter.mp hkv).2
      simpa using hmem

/-- Witness for C9: the result of validating `("alice", "Secret123")`
against the store holding alice. -/
theorem c9_password_stripped_witness :
    AuthService.validateAdmin aliceStore "alice" "Secret123"
      = some [("_id", .str "661f0a"), ("username", .str "alice")] ∧
    ∀ kv ∈ ([("_id", FieldValue.str "661f0a"), ("username", FieldValue.str "alice")] :
        List (String × FieldValue)), kv.1 ≠ "password" :=
  ⟨by decide,
   c9_password_stripped aliceStore "alice" "Secret123"
     [("_id", .str "661f0a"), ("username", .str "alice")] (by decide)⟩

/-- C10: a request whose `access_token` cookie is the empty string is
treated exactly like a request with no token at all — the extractor maps
the falsy cookie value to absent, so the guard answers 401 without
attempting token validation, with the same outcome as for the cookieless
request. -/
theorem c10_empty_cookie_absent (secret : String) (now : Nat) (req : InboundRequest)
    (h : req.cookieValue "access_token" = some "") :
    jwtFromRequest req = none ∧
    JwtAuthGuard.run secret now req = .unauthorizedNoToken ∧
    JwtAuthGuard.run secret now req
      = JwtAuthGuard.run secret now { cookies := [], authorization := req.authorization } := by
  have hext : jwtFromRequest req = none := by simp [jwtFromRequest, h]
  have hnil : jwtFromRequest { cookies := [], authorization := req.authorization } = none := rfl
  refine ⟨hext, ?_, ?_⟩
  · simp [JwtAuthGuard.run, hext]
  · simp only [JwtAuthGuard.run, hext, hnil]

/-- Witness for C10: the request carrying exactly the cookie
`access_token=` (empty value) and no `Authorization` header. -/
theorem c10_empty_cookie_absent_witness :
    InboundRequest.cookieValue ⟨[("access_token", "")], none⟩ "access_token" = some "" ∧
    (jwtFromRequest ⟨[("access_token", "")], none⟩ = none ∧
      JwtAuthGuard.run "s3cret" 7 ⟨[("access_token", "")], none⟩ = .unauthorizedNoToken ∧
      JwtAuthGuard.run "s3cret" 7 ⟨[("access_token", "")], none⟩
        = JwtAuthGuard.run "s3cret" 7 ⟨[], none⟩) :=
  ⟨by decide,
   c10_empty_cookie_absent "s3cret" 7 ⟨[("access_token", "")], none⟩ (by decide)⟩

end Backstage
